import Mathlib

/-!
Verification of the provider-adapter and composition-root layer of the
localGPT RAG system, shallowly embedded from
`rag_system/utils/watsonx_client.py` and `rag_system/factory.py`.

External collaborators (the IBM SDK calls, the retrieval pipeline, the
environment loader) are modelled as explicit behaviour parameters; the
Python control flow of the two files under verification is translated
faithfully, including exception handling (as `Except`-style case splits)
and Python dictionary aliasing (the resolved pipeline configuration is the
same object as the table entry, so in-place mutation writes through).
-/

set_option autoImplicit false

/-- Pillow image objects are opaque to the client code under verification:
`generate_completion` only tests the list for truthiness (emptiness) and
then issues the same backend call either way. -/
structure PILImage where
  tag : Nat
deriving DecidableEq

/-- The keyword arguments recognised by the sampling-parameter forwarding
code of `generate_completion` (`max_tokens`, `temperature`, `top_p`,
`top_k`).  A `none` field models the key being absent from `kwargs`;
numeric values are modelled as rationals. -/
structure GenKwargs where
  max_tokens : Option Rat
  temperature : Option Rat
  top_p : Option Rat
  top_k : Option Rat
deriving DecidableEq

/-- One guarded insertion into `gen_params`: Python
`if kwargs.get(k): gen_params[k2] = kwargs[k]` adds the pair exactly when
the key is present and its value is truthy (for a number: nonzero). -/
def guardedParam (key : String) (o : Option Rat) : List (String × Rat) :=
  match o with
  | none => []
  | some v => if v = 0 then [] else [(key, v)]

/-- The `gen_params` dictionary assembled by `generate_completion` before
the backend call, in Python insertion order.  Note the key renaming
`max_tokens` to `max_new_tokens`. -/
def buildGenParams (kw : GenKwargs) : List (String × Rat) :=
  guardedParam "max_new_tokens" kw.max_tokens ++
  guardedParam "temperature" kw.temperature ++
  guardedParam "top_p" kw.top_p ++
  guardedParam "top_k" kw.top_k

/-- The `gen_params` dictionary assembled by `stream_completion`, which
only forwards `max_tokens` and `temperature`. -/
def buildStreamParams (kw : GenKwargs) : List (String × Rat) :=
  guardedParam "max_new_tokens" kw.max_tokens ++
  guardedParam "temperature" kw.temperature

/-- Outcome of the external `ModelInference.generate` call (plus the
parameter and inference-object construction preceding it, which sit inside
the same `try` block): either an exception with its description, or a
returned value.  A returned dictionary is represented by its `results`
entry (`none` when the key is absent; each list element is a result record
whose `generated_text` entry may be absent); any non-dictionary return is
represented by its string rendering. -/
inductive BackendGenResult where
  | raise (msg : String)
  | dict (results : Option (List (Option String)))
  | other (s : String)
deriving DecidableEq

/-- The text-extraction step
`result.get(.results., [.]) [0].get(.generated_text., ..)` of the client,
still inside the `try` block: extracting from an empty `results` list
raises an index error that the surrounding handler turns into a degraded
result, exactly like a backend exception. -/
def extractText (r : BackendGenResult) : Except String String :=
  match r with
  | .raise msg => .error msg
  | .dict results =>
      match results.getD [none] with
      | [] => .error "list index out of range"
      | gt :: _ => .ok (gt.getD "")
  | .other s => .ok s

/-- The dictionary returned by `generate_completion`, with one optional
field per possible key: the success branch returns
`response, model, done` and the failure branch returns
`response, error`.  A `none` field models the key being absent. -/
structure GenerationResult where
  response : Option String
  model : Option String
  done : Option Bool
  error : Option String
deriving DecidableEq

/-- `WatsonXClient.generate_completion`, with the external backend passed
in as a function from the assembled generation parameters and the prompt
to the call outcome.  `format`, `images` and `enable_thinking` are
accepted and ignored by the Python code (images only trigger a warning
print; the same `generate(prompt=prompt)` call is issued either way). -/
def generate_completion
    (backend : List (String × Rat) → String → BackendGenResult)
    (model prompt : String) (format : String) (images : List PILImage)
    (enable_thinking : Option Bool) (kw : GenKwargs) : GenerationResult :=
  match extractText (backend (buildGenParams kw) prompt) with
  | .error msg => { response := some "", model := none, done := none, error := some msg }
  | .ok t => { response := some t, model := some model, done := some true, error := none }

/-- `WatsonXClient.generate_completion_async`: accepts an additional
`timeout` keyword and offloads the synchronous call unchanged onto an
executor; the lambda passes `model, prompt, format, images,
enable_thinking` and the remaining keyword arguments, and never passes
`timeout`. -/
def generate_completion_async
    (backend : List (String × Rat) → String → BackendGenResult)
    (model prompt : String) (format : String) (images : List PILImage)
    (enable_thinking : Option Bool) (timeout : Int) (kw : GenKwargs) :
    GenerationResult :=
  generate_completion backend model prompt format images enable_thinking kw

/-- How the iteration over `generate_text_stream` ends: normally, with an
attribute error (the SDK object lacks the streaming method, triggering the
blocking-call fallback), or with any other exception (caught by the outer
handler). -/
inductive StreamEnd where
  | done
  | errAttr (msg : String)
  | errOther (msg : String)
deriving DecidableEq

/-- Behaviour of the external SDK during one `stream_completion` call:
an optional exception raised during parameter or inference-object
construction (before any chunk), the chunks produced by the streaming
iterator before it ends, how it ends, and the outcome of the fallback
blocking `generate` call used when the streaming method is missing. -/
structure StreamBehavior where
  setupRaise : Option String
  chunks : List String
  ending : StreamEnd
  fallback : BackendGenResult
deriving DecidableEq

/-- The chunk sequence the `stream_completion` generator body yields for
one observed SDK behaviour.  Falsy (empty) chunks from the iterator are
skipped by `if chunk:`; an attribute error falls back to one blocking call
whose extracted text is yielded unconditionally; any exception reaching
the outer handler yields one final empty chunk. -/
def streamOutput (b : StreamBehavior) : List String :=
  match b.setupRaise with
  | some _ => [""]
  | none =>
    match b.ending with
    | .done => b.chunks.filter (fun c => ¬ c = "")
    | .errOther _ => b.chunks.filter (fun c => ¬ c = "") ++ [""]
    | .errAttr _ =>
        match extractText b.fallback with
        | .ok t => b.chunks.filter (fun c => ¬ c = "") ++ [t]
        | .error _ => b.chunks.filter (fun c => ¬ c = "") ++ [""]

/-- `WatsonXClient.stream_completion`, returning the finite sequence of
chunks the generator yields, for the SDK behaviour determined by the
assembled parameters and the prompt. -/
def stream_completion
    (backend : List (String × Rat) → String → StreamBehavior)
    (model prompt : String) (images : List PILImage)
    (enable_thinking : Option Bool) (kw : GenKwargs) : List String :=
  streamOutput (backend (buildStreamParams kw) prompt)

/-- A failure during a `stream_completion` call, in the sense of an
exception reaching the outer `except Exception` handler: a setup
exception, a non-attribute exception from the streaming iterator, or a
failing fallback call after the streaming method turned out to be
missing.  (A bare attribute error is the documented graceful degradation
to one blocking call, not a failure.) -/
def streamFailed (b : StreamBehavior) : Prop :=
  b.setupRaise.isSome = true ∨
  (∃ m, b.ending = StreamEnd.errOther m) ∨
  (∃ m e, b.ending = StreamEnd.errAttr m ∧ extractText b.fallback = .error e)

/-- Outcome of the external embedding call (`Embeddings` construction plus
`embed_query`, all inside one `try` block): an exception, a returned
list of numbers, or a returned non-list value. -/
inductive EmbedOutcome where
  | raise (msg : String)
  | retList (v : List Rat)
  | other
deriving DecidableEq

/-- `WatsonXClient.generate_embedding`: returns the backend list when the
result is a list, and the empty list both on any exception and on a
non-list result (`return result if isinstance(result, list) else []`). -/
def generate_embedding (backend : String → String → EmbedOutcome)
    (model text : String) : List Rat :=
  match backend model text with
  | .raise _ => []
  | .retList v => v
  | .other => []

/-- The storage sub-record of a pipeline configuration: database path and
the two table names. -/
structure StorageConfig where
  db_path : String
  text_table_name : String
  image_table_name : String
deriving DecidableEq

/-- One pipeline-configuration record: an optional `storage` sub-record
(`none` models the key being absent) plus the remaining fields, which the
factory never inspects, modelled as an opaque association list. -/
structure ModeConfig where
  storage : Option StorageConfig
  rest : List (String × String)
deriving DecidableEq

/-- The process-wide `PIPELINE_CONFIGS` dictionary: mode name to
configuration record.  Python dictionaries have unique keys; lookups find
the first matching entry. -/
abbrev PipelineTable : Type := List (String × ModeConfig)

/-- Dictionary lookup (`d.get(k)` and `d[k]`): the first entry with the
given key. -/
def dictGet (table : PipelineTable) (k : String) : Option ModeConfig :=
  match table with
  | [] => none
  | (k2, v) :: rest => if k2 = k then some v else dictGet rest k

/-- In-place mutation of the dictionary value object held under a key:
because Python `PIPELINE_CONFIGS.get(mode, ...)` returns the very object
stored in the table, assigning to it replaces the value seen through the
table as well. -/
def dictSet (table : PipelineTable) (k : String) (v : ModeConfig) : PipelineTable :=
  match table with
  | [] => []
  | (k2, old) :: rest =>
      if k2 = k then (k2, v) :: rest else (k2, old) :: dictSet rest k v

/-- The hard-coded default storage record injected by `get_agent` when the
resolved configuration lacks a `storage` key. -/
def default_storage : StorageConfig :=
  { db_path := "lancedb"
    text_table_name := "text_pages_default"
    image_table_name := "image_pages" }

/-- The process-wide `WATSONX_CONFIG` record read by the factory. -/
structure WatsonXConfig where
  api_key : String
  project_id : String
  url : String
deriving DecidableEq

/-- The process-wide `OLLAMA_CONFIG` record read by the factory; only its
host field is consumed here. -/
structure OllamaConfig where
  host : String
deriving DecidableEq

/-- The process-wide configuration imported from `rag_system.main` by both
factory functions. -/
structure GlobalConfig where
  LLM_BACKEND : String
  OLLAMA_CONFIG : OllamaConfig
  WATSONX_CONFIG : WatsonXConfig
deriving DecidableEq

/-- A constructed provider adapter: either a `WatsonXClient` (holding the
credentials it was constructed with) or an `OllamaClient` (holding the
host). -/
inductive LLMClient where
  | watsonx (api_key project_id url : String)
  | ollama (host : String)
deriving DecidableEq

/-- The backend configuration record passed to the component alongside the
client (`llm_config` in the factory: either `WATSONX_CONFIG` or
`OLLAMA_CONFIG`). -/
inductive LLMConfig where
  | watsonx (c : WatsonXConfig)
  | ollama (c : OllamaConfig)
deriving DecidableEq

/-- The errors the factory can raise: the `ValueError` for incomplete
Watson X configuration, and a `KeyError` when the table lacks the
`default` entry. -/
inductive FactoryError where
  | valueError (msg : String)
  | keyError (key : String)
deriving DecidableEq

/-- The exact message of the `ValueError` raised by both factory functions
when the cloud backend is selected with a missing credential or project
(Python implicitly concatenates the two adjacent string literals). -/
def watsonx_error_msg : String :=
  "Watson X configuration incomplete. Please set WATSONX_API_KEY and WATSONX_PROJECT_ID environment variables."

/-- Python `str.lower`, lowering each character: written as a structural
map over the character list (extensionally Lean's `String.toLower`, whose
recursion scheme does not reduce on concrete scenarios). -/
def pyLower (s : String) : String := String.mk (s.data.map Char.toLower)

/-- The backend-selection prelude shared verbatim by `get_agent` and
`get_indexing_pipeline`: a case-insensitive match of `LLM_BACKEND` against
the cloud identifier, the fail-fast credential check, and the construction
of the chosen client together with its configuration record.  The check
`if not WATSONX_CONFIG[...]` fires exactly on the empty string. -/
def selectClient (g : GlobalConfig) : Except FactoryError (LLMClient × LLMConfig) :=
  if pyLower g.LLM_BACKEND = "watsonx" then
    if g.WATSONX_CONFIG.api_key = "" ∨ g.WATSONX_CONFIG.project_id = "" then
      .error (.valueError watsonx_error_msg)
    else
      .ok (.watsonx g.WATSONX_CONFIG.api_key g.WATSONX_CONFIG.project_id
             g.WATSONX_CONFIG.url,
           .watsonx g.WATSONX_CONFIG)
  else
    .ok (.ollama g.OLLAMA_CONFIG.host, .ollama g.OLLAMA_CONFIG)

/-- The `Agent` constructed by `get_agent`, holding its keyword arguments
`pipeline_configs`, `llm_client` and `ollama_config`. -/
structure Agent where
  pipeline_configs : ModeConfig
  llm_client : LLMClient
  ollama_config : LLMConfig
deriving DecidableEq

/-- The `IndexingPipeline` constructed by `get_indexing_pipeline`, holding
its three positional constructor arguments. -/
structure IndexingPipeline where
  config : ModeConfig
  llm_client : LLMClient
  llm_config : LLMConfig
deriving DecidableEq

/-- `rag_system.factory.get_agent`, with the process-wide configuration
and the `PIPELINE_CONFIGS` table passed explicitly.  Returns the outcome
(the agent, or the propagated error), the table as left behind by the
call (configuration resolution aliases the stored entry, so the storage
injection writes through to it), and the list of provider adapters
constructed during the call.  Python evaluates
`PIPELINE_CONFIGS.get(mode, PIPELINE_CONFIGS[..default..])` eagerly, so a
missing `default` entry raises a `KeyError` even for a present mode. -/
def get_agent (g : GlobalConfig) (table : PipelineTable) (mode : String) :
    Except FactoryError Agent × PipelineTable × List LLMClient :=
  match selectClient g with
  | .error e => (.error e, table, [])
  | .ok (client, llm_config) =>
    match dictGet table "default" with
    | none => (.error (.keyError "default"), table, [client])
    | some d =>
      let key := if (dictGet table mode).isSome then mode else "default"
      let config := (dictGet table mode).getD d
      match config.storage with
      | some _ => (.ok ⟨config, client, llm_config⟩, table, [client])
      | none =>
        let config2 : ModeConfig := { config with storage := some default_storage }
        (.ok ⟨config2, client, llm_config⟩, dictSet table key config2, [client])

/-- `rag_system.factory.get_indexing_pipeline`: same backend selection and
configuration resolution as `get_agent`, but no storage injection, so the
table is returned unchanged. -/
def get_indexing_pipeline (g : GlobalConfig) (table : PipelineTable)
    (mode : String) :
    Except FactoryError IndexingPipeline × PipelineTable × List LLMClient :=
  match selectClient g with
  | .error e => (.error e, table, [])
  | .ok (client, llm_config) =>
    match dictGet table "default" with
    | none => (.error (.keyError "default"), table, [client])
    | some d =>
      let config := (dictGet table mode).getD d
      (.ok ⟨config, client, llm_config⟩, table, [client])

/-! ## Helper lemmas -/

theorem mem_guardedParam (k k2 : String) (o : Option Rat) (v : Rat) :
    (k, v) ∈ guardedParam k2 o ↔ k = k2 ∧ o = some v ∧ ¬ v = 0 := by
  cases o with
  | none => simp [guardedParam]
  | some w =>
    by_cases hw : w = 0
    · subst hw
      simp [guardedParam]
      intro _ h0
      exact h0.symm
    · simp only [guardedParam, if_neg hw, List.mem_singleton, Prod.mk.injEq,
        Option.some.injEq]
      constructor
      · rintro ⟨rfl, rfl⟩
        exact ⟨rfl, rfl, hw⟩
      · rintro ⟨rfl, rfl, -⟩
        exact ⟨rfl, rfl⟩

theorem dictGet_dictSet (table : PipelineTable) (k : String) (v : ModeConfig)
    (h : (dictGet table k).isSome = true) :
    dictGet (dictSet table k v) k = some v := by
  induction table with
  | nil => simp [dictGet] at h
  | cons kv rest ih =>
    obtain ⟨k2, old⟩ := kv
    by_cases hk : k2 = k
    · simp [dictGet, dictSet, hk]
    · simp only [dictGet, dictSet, if_neg hk] at h ⊢
      exact ih h

/-! ## Claims about the Watson X client -/

/-- Claim C1: for every model, prompt and options, if the backend call
inside `generate_completion` raises, the exception does not propagate: the
returned result has an empty `response` and an `error` field equal to the
description of the underlying failure. -/
theorem C1_generate_completion_failure_degrades
    (backend : List (String × Rat) → String → BackendGenResult)
    (model prompt format : String) (images : List PILImage)
    (enable_thinking : Option Bool) (kw : GenKwargs) (msg : String)
    (hfail : backend (buildGenParams kw) prompt = .raise msg) :
    generate_completion backend model prompt format images enable_thinking kw =
      { response := some "", model := none, done := none, error := some msg } := by
  unfold generate_completion
  rw [hfail]
  rfl

theorem C1_witness :
    generate_completion (fun _ _ => .raise "connection refused") "granite" "hi"
        "" [] none ⟨none, none, none, none⟩ =
      { response := some "", model := none, done := none,
        error := some "connection refused" } :=
  C1_generate_completion_failure_degrades (fun _ _ => .raise "connection refused")
    "granite" "hi" "" [] none ⟨none, none, none, none⟩ "connection refused" rfl

/-- Claim C6: `generate_completion_async` returns exactly the value of
`generate_completion` at the identical inputs, for every backend, model,
prompt, format, image list, thinking flag, timeout and keyword record. -/
theorem C6_async_equals_sync
    (backend : List (String × Rat) → String → BackendGenResult)
    (model prompt format : String) (images : List PILImage)
    (enable_thinking : Option Bool) (timeout : Int) (kw : GenKwargs) :
    generate_completion_async backend model prompt format images
        enable_thinking timeout kw =
      generate_completion backend model prompt format images enable_thinking kw :=
  rfl

/-- Claim C7 counterexample: a failed call returns a dictionary holding
only `response` and `error`; the echoed model identifier and the
completion flag are absent (`none`), against the claim that every result
carries them. -/
theorem C7_counterexample :
    generate_completion (fun _ _ => .raise "boom") "granite" "hi" "" [] none
        ⟨none, none, none, none⟩ =
      { response := some "", model := none, done := none, error := some "boom" } :=
  rfl

/-- Claim C7 as amended: a successful `generate_completion` result carries
the echoed model identifier and the completion flag `True`; a failed one
carries only the empty text and the error message, with no model and no
completion flag. -/
theorem C7_result_shape
    (backend : List (String × Rat) → String → BackendGenResult)
    (model prompt format : String) (images : List PILImage)
    (enable_thinking : Option Bool) (kw : GenKwargs) :
    (∀ t, extractText (backend (buildGenParams kw) prompt) = .ok t →
      generate_completion backend model prompt format images enable_thinking kw =
        { response := some t, model := some model, done := some true, error := none }) ∧
    (∀ msg, extractText (backend (buildGenParams kw) prompt) = .error msg →
      generate_completion backend model prompt format images enable_thinking kw =
        { response := some "", model := none, done := none, error := some msg }) := by
  constructor
  · intro t h
    unfold generate_completion
    rw [h]
  · intro msg h
    unfold generate_completion
    rw [h]

theorem C7_witness :
    generate_completion (fun _ _ => .dict (some [some "ok!"])) "granite" "hi"
        "" [] none ⟨none, none, none, none⟩ =
      { response := some "ok!", model := some "granite", done := some true,
        error := none } :=
  (C7_result_shape (fun _ _ => .dict (some [some "ok!"])) "granite" "hi" "" []
      none ⟨none, none, none, none⟩).1 "ok!" rfl

/-- Claim C9: `generate_embedding` never raises; on any backend exception
it returns the empty list, and on a backend success returning a numeric
list it returns that list unchanged. -/
theorem C9_generate_embedding_total
    (backend : String → String → EmbedOutcome) (model text : String) :
    (∀ msg, backend model text = .raise msg →
      generate_embedding backend model text = []) ∧
    (∀ v, backend model text = .retList v →
      generate_embedding backend model text = v) := by
  constructor
  · intro msg h
    unfold generate_embedding
    rw [h]
  · intro v h
    unfold generate_embedding
    rw [h]

theorem C9_witness :
    generate_embedding (fun _ _ => .raise "no embedding support") "m" "t" = [] ∧
    generate_embedding (fun _ _ => .retList [1, 2]) "m" "t" = [1, 2] :=
  ⟨(C9_generate_embedding_total (fun _ _ => .raise "no embedding support")
      "m" "t").1 "no embedding support" rfl,
   (C9_generate_embedding_total (fun _ _ => .retList [1, 2]) "m" "t").2
      [1, 2] rfl⟩

/-- Claim C10: the result of `generate_completion_async` does not depend
on the `timeout` argument: two calls differing only in the timeout return
equal results (the hint is never passed to the synchronous call). -/
theorem C10_timeout_noninterference
    (backend : List (String × Rat) → String → BackendGenResult)
    (model prompt format : String) (images : List PILImage)
    (enable_thinking : Option Bool) (t1 t2 : Int) (kw : GenKwargs) :
    generate_completion_async backend model prompt format images
        enable_thinking t1 kw =
      generate_completion_async backend model prompt format images
        enable_thinking t2 kw :=
  rfl

theorem mem_filter_ne (l : List String) (c : String)
    (hc : c ∈ l.filter (fun c => ¬ c = "")) : ¬ c = "" := by
  have := List.of_mem_filter hc
  simpa using this

theorem streamOutput_failed (b : StreamBehavior) (h : streamFailed b) :
    ∃ pre, streamOutput b = pre ++ [""] ∧ ∀ c ∈ pre, ¬ c = "" := by
  obtain ⟨s, chunks, ending, fallback⟩ := b
  rcases h with h | ⟨m, h⟩ | ⟨m, e, h1, h2⟩
  · obtain ⟨msg, rfl⟩ := Option.isSome_iff_exists.mp h
    exact ⟨[], rfl, by simp⟩
  · cases s with
    | some msg => exact ⟨[], rfl, by simp⟩
    | none =>
      dsimp only at h
      subst h
      exact ⟨chunks.filter (fun c => ¬ c = ""), rfl,
        fun c hc => mem_filter_ne _ _ hc⟩
  · cases s with
    | some msg => exact ⟨[], rfl, by simp⟩
    | none =>
      dsimp only at h1
      subst h1
      refine ⟨chunks.filter (fun c => ¬ c = ""), ?_,
        fun c hc => mem_filter_ne _ _ hc⟩
      simp only [streamOutput]
      rw [h2]

/-- Claim C4: `stream_completion` never raises (it is a total function of
the observed SDK behaviour), and when a failure occurs during the call —
at setup, mid-stream from the iterator, or in the fallback blocking call —
the yielded sequence terminates immediately after one empty chunk, which
is its only empty chunk. -/
theorem C4_stream_failure_terminates
    (backend : List (String × Rat) → String → StreamBehavior)
    (model prompt : String) (images : List PILImage)
    (enable_thinking : Option Bool) (kw : GenKwargs)
    (h : streamFailed (backend (buildStreamParams kw) prompt)) :
    ∃ pre, stream_completion backend model prompt images enable_thinking kw =
        pre ++ [""] ∧ ∀ c ∈ pre, ¬ c = "" :=
  streamOutput_failed _ h

theorem C4_witness :
    stream_completion
        (fun _ _ => ⟨none, ["Hel", "", "lo"], .errOther "connection reset",
          .other ""⟩) "granite" "hi" [] none ⟨none, none, none, none⟩ =
      ["Hel", "lo", ""] ∧
    ∃ pre, stream_completion
        (fun _ _ => ⟨none, ["Hel", "", "lo"], .errOther "connection reset",
          .other ""⟩) "granite" "hi" [] none ⟨none, none, none, none⟩ =
      pre ++ [""] ∧ ∀ c ∈ pre, ¬ c = "" :=
  ⟨by decide,
   C4_stream_failure_terminates _ "granite" "hi" [] none ⟨none, none, none, none⟩
     (Or.inr (Or.inl ⟨"connection reset", rfl⟩))⟩

/-- Claim C8 counterexample: `temperature` supplied with the zero value (a
non-default, explicitly supplied setting) is dropped by the truthiness
test `if kwargs.get(..temperature..)`: the assembled parameter dictionary
is empty, and the backend generation call observes zero parameters. -/
theorem C8_counterexample :
    buildGenParams ⟨none, some 0, none, none⟩ = [] ∧
    generate_completion (fun ps _ => .other (toString ps.length)) "granite"
        "hi" "" [] none ⟨none, some 0, none, none⟩ =
      { response := some "0", model := some "granite", done := some true,
        error := none } := by
  constructor
  · rfl
  · rfl

/-- Claim C8 as amended: a sampling parameter reaches the backend
generation call exactly when it is supplied with a truthy (nonzero) value,
and then with its value forwarded verbatim (`max_tokens` travels under the
backend name `max_new_tokens`); an absent parameter, and equally a
parameter supplied as zero, is not forwarded. -/
theorem C8_param_forwarding (kw : GenKwargs) (v : Rat) :
    (("max_new_tokens", v) ∈ buildGenParams kw ↔
      kw.max_tokens = some v ∧ ¬ v = 0) ∧
    (("temperature", v) ∈ buildGenParams kw ↔
      kw.temperature = some v ∧ ¬ v = 0) ∧
    (("top_p", v) ∈ buildGenParams kw ↔ kw.top_p = some v ∧ ¬ v = 0) ∧
    (("top_k", v) ∈ buildGenParams kw ↔ kw.top_k = some v ∧ ¬ v = 0) := by
  simp [buildGenParams, mem_guardedParam]

/-! ## Concrete composition scenarios -/

/-- A process configuration selecting the local backend. -/
def gOllama : GlobalConfig :=
  { LLM_BACKEND := "ollama"
    OLLAMA_CONFIG := { host := "http://localhost:11434" }
    WATSONX_CONFIG :=
      { api_key := "", project_id := "", url := "https://us-south.ml.cloud.ibm.com" } }

/-- A process configuration selecting the cloud backend with an empty
credential and project identifier p1. -/
def gCloudNoKey : GlobalConfig :=
  { LLM_BACKEND := "WatsonX"
    OLLAMA_CONFIG := { host := "http://localhost:11434" }
    WATSONX_CONFIG :=
      { api_key := "", project_id := "p1", url := "https://us-south.ml.cloud.ibm.com" } }

/-- A pipeline table whose only entry, `default`, lacks a storage
sub-record. -/
def tableNoStorage : PipelineTable :=
  [("default", { storage := none, rest := [("retriever", "hybrid")] })]

/-- A storage record distinct from the injected default, for scenarios
where the `default` entry already carries one. -/
def ownStorage : StorageConfig :=
  { db_path := "lancedb", text_table_name := "text_pages",
    image_table_name := "image_pages" }

/-- A pipeline table whose `default` entry already carries a storage
sub-record. -/
def tableWithStorage : PipelineTable :=
  [("default", { storage := some ownStorage, rest := [] })]

/-- Lookup at the resolved key: the key `get_agent` mutates under is bound
in the table, and bound to the just-resolved configuration. -/
theorem dictGet_resolved (table : PipelineTable) (mode : String) (d : ModeConfig)
    (hd : dictGet table "default" = some d) :
    dictGet table (if (dictGet table mode).isSome then mode else "default") =
      some ((dictGet table mode).getD d) := by
  cases hm : dictGet table mode with
  | some c => simp [hm]
  | none => simp [hm, hd]

/-! ## Claims about the composition root -/

/-- Claim C2 counterexample: with a table whose `default` entry lacks a
storage sub-record, one `get_agent` call changes the shared table — the
resolved configuration aliases the stored entry, so the in-place default
injection writes through to the table. -/
theorem C2_counterexample :
    ¬ (get_agent gOllama tableNoStorage "research").2.1 = tableNoStorage := by
  decide

/-- Claim C2 as amended: the default-storage injection mutates the
just-resolved configuration in place, and since that configuration is the
very object stored in the table, the mutation is visible through the
table: when the resolved configuration already has a storage sub-record
the table is left unchanged, and when it lacks one the entry under the
resolved key becomes the resolved configuration with the default storage
record added — so the table after the call differs from the table before. -/
theorem C2_storage_injection_frame (g : GlobalConfig) (table : PipelineTable)
    (mode : String) (p : LLMClient × LLMConfig) (d : ModeConfig)
    (hsel : selectClient g = .ok p) (hd : dictGet table "default" = some d) :
    (((dictGet table mode).getD d).storage.isSome = true →
        (get_agent g table mode).2.1 = table) ∧
    (((dictGet table mode).getD d).storage = none →
        (get_agent g table mode).2.1 =
          dictSet table (if (dictGet table mode).isSome then mode else "default")
            { (dictGet table mode).getD d with storage := some default_storage } ∧
        ¬ (get_agent g table mode).2.1 = table) := by
  obtain ⟨client, llm_config⟩ := p
  constructor
  · intro hst
    obtain ⟨s, hs⟩ := Option.isSome_iff_exists.mp hst
    unfold get_agent
    rw [hsel, hd]
    simp only [hs]
  · intro hst
    have htab : (get_agent g table mode).2.1 =
        dictSet table (if (dictGet table mode).isSome then mode else "default")
          { (dictGet table mode).getD d with storage := some default_storage } := by
      unfold get_agent
      rw [hsel, hd]
      simp only [hst]
    refine ⟨htab, ?_⟩
    intro heq
    rw [htab] at heq
    have hres := dictGet_resolved table mode d hd
    have hnew := dictGet_dictSet table
      (if (dictGet table mode).isSome then mode else "default")
      { (dictGet table mode).getD d with storage := some default_storage }
      (by rw [hres]; rfl)
    rw [heq, hres] at hnew
    have hfields := congrArg ModeConfig.storage (Option.some.inj hnew)
    rw [hst] at hfields
    exact Option.noConfusion hfields

theorem C2_witness :
    (get_agent gOllama tableWithStorage "research").2.1 = tableWithStorage ∧
    ¬ (get_agent gOllama tableNoStorage "research").2.1 = tableNoStorage :=
  ⟨(C2_storage_injection_frame gOllama tableWithStorage "research"
      (.ollama "http://localhost:11434", .ollama ⟨"http://localhost:11434"⟩)
      { storage := some ownStorage, rest := [] } rfl rfl).1 rfl,
   ((C2_storage_injection_frame gOllama tableNoStorage "research"
      (.ollama "http://localhost:11434", .ollama ⟨"http://localhost:11434"⟩)
      { storage := none, rest := [("retriever", "hybrid")] } rfl rfl).2 rfl).2⟩

/-- Claim C3 counterexample: mode `research` absent, the `default` entry
has no storage sub-record — `get_indexing_pipeline` hands the constructed
pipeline that configuration as is, with no storage sub-record present
(only `get_agent` injects the default). -/
theorem C3_counterexample :
    (get_indexing_pipeline gOllama tableNoStorage "research").1 =
      .ok ⟨{ storage := none, rest := [("retriever", "hybrid")] },
        .ollama "http://localhost:11434", .ollama ⟨"http://localhost:11434"⟩⟩ :=
  rfl

/-- Claim C3 as amended: for a mode absent from the table, both factory
functions resolve the configuration to the `default` entry; the agent
receives that entry with a storage sub-record guaranteed (the default one
is injected when absent), while the indexing pipeline receives the entry
exactly as stored, so its configuration has a storage sub-record only when
the `default` entry already does. -/
theorem C3_default_resolution (g : GlobalConfig) (table : PipelineTable)
    (mode : String) (p : LLMClient × LLMConfig) (d : ModeConfig)
    (hsel : selectClient g = .ok p) (habs : dictGet table mode = none)
    (hd : dictGet table "default" = some d) :
    ((get_agent g table mode).1 =
      .ok ⟨{ d with storage := some (d.storage.getD default_storage) }, p.1, p.2⟩ ∧
     ∃ a, (get_agent g table mode).1 = .ok a ∧
       a.pipeline_configs.storage.isSome = true) ∧
    (get_indexing_pipeline g table mode).1 = .ok ⟨d, p.1, p.2⟩ := by
  obtain ⟨client, llm_config⟩ := p
  obtain ⟨st, rest⟩ := d
  have hagent : (get_agent g table mode).1 =
      .ok ⟨{ storage := some (st.getD default_storage), rest := rest },
        client, llm_config⟩ := by
    unfold get_agent
    rw [hsel, hd]
    cases st with
    | none => simp [habs]
    | some s => simp [habs]
  refine ⟨⟨hagent, ⟨_, hagent, rfl⟩⟩, ?_⟩
  unfold get_indexing_pipeline
  rw [hsel, hd]
  simp [habs]

theorem C3_witness :
    (get_agent gOllama tableNoStorage "research").1 =
      .ok ⟨{ storage := some default_storage, rest := [("retriever", "hybrid")] },
        .ollama "http://localhost:11434", .ollama ⟨"http://localhost:11434"⟩⟩ ∧
    (get_indexing_pipeline gOllama tableNoStorage "research").1 =
      .ok ⟨{ storage := none, rest := [("retriever", "hybrid")] },
        .ollama "http://localhost:11434", .ollama ⟨"http://localhost:11434"⟩⟩ :=
  ⟨(C3_default_resolution gOllama tableNoStorage "research"
      (.ollama "http://localhost:11434", .ollama ⟨"http://localhost:11434"⟩)
      { storage := none, rest := [("retriever", "hybrid")] } rfl rfl rfl).1.1,
   (C3_default_resolution gOllama tableNoStorage "research"
      (.ollama "http://localhost:11434", .ollama ⟨"http://localhost:11434"⟩)
      { storage := none, rest := [("retriever", "hybrid")] } rfl rfl rfl).2⟩

/-- Claim C5: cloud backend selected and an empty credential (for any
project identifier): both factory functions fail fast with the
configuration `ValueError` whose message names the missing
`WATSONX_API_KEY` setting; the returned empty adapter trace records that
no provider adapter was constructed before the failure, and the table is
untouched. -/
theorem C5_failfast_missing_credential (g : GlobalConfig)
    (table : PipelineTable) (mode : String)
    (hb : pyLower g.LLM_BACKEND = "watsonx")
    (hk : g.WATSONX_CONFIG.api_key = "") :
    get_agent g table mode = (.error (.valueError watsonx_error_msg), table, []) ∧
    get_indexing_pipeline g table mode =
      (.error (.valueError watsonx_error_msg), table, []) ∧
    ∃ s1 s2, watsonx_error_msg = s1 ++ "WATSONX_API_KEY" ++ s2 := by
  have hsel : selectClient g = .error (.valueError watsonx_error_msg) := by
    simp [selectClient, hb, hk]
  refine ⟨?_, ?_, "Watson X configuration incomplete. Please set ",
    " and WATSONX_PROJECT_ID environment variables.", by decide⟩
  · unfold get_agent
    rw [hsel]
  · unfold get_indexing_pipeline
    rw [hsel]

theorem C5_witness :
    get_agent gCloudNoKey tableNoStorage "default" =
      (.error (.valueError watsonx_error_msg), tableNoStorage, []) ∧
    get_indexing_pipeline gCloudNoKey tableNoStorage "default" =
      (.error (.valueError watsonx_error_msg), tableNoStorage, []) ∧
    ∃ s1 s2, watsonx_error_msg = s1 ++ "WATSONX_API_KEY" ++ s2 :=
  C5_failfast_missing_credential gCloudNoKey tableNoStorage "default"
    (by decide) rfl
